import Mathlib

/-!
Shallow embedding of the SmartSpend budget-alert and financial-summary
logic (src/server/routes.ts, src/server/storage.ts) together with proofs
of the specification claims about it.

Modelling conventions:
* Monetary amounts are exact rationals (`ℚ`); the source stores decimal
  strings and casts with `Number(...)`.
* Calendar dates are `(year, month, day)` triples with `month` in `0..11`
  matching JavaScript `Date.getMonth`; comparisons of `getTime()` values
  are modelled by the strictly monotone key `dateKey`.
* The unguarded JavaScript division in the alert evaluator is modelled by
  `JsNum`, an extended-rational type with `Infinity` / `NaN` following
  IEEE/ECMAScript comparison and arithmetic rules for the operations used.
* JavaScript `Map` objects keyed by `id` are modelled as lists together
  with the `Map.set` update function (`alertsSet`, `transactionsSet`):
  replace on an existing key, append on a fresh key.
* `Array.prototype.sort` (a stable comparator sort) is modelled by
  `List.mergeSort`, and `toFixed` by exact decimal rounding
  (round-half-away-from-zero on the magnitude, per ECMA-262).
-/

namespace SmartSpend

/-- Calendar date with JavaScript month numbering (0 = January). -/
structure Date where
  year : Nat
  month : Nat
  day : Nat
deriving DecidableEq, Repr

/-- Gregorian leap-year test. -/
def isLeapYear (y : Nat) : Bool :=
  y % 4 == 0 && (y % 100 != 0 || y % 400 == 0)

/-- Number of days of month `m` (0-based) of year `y`. -/
def daysInMonth (y : Nat) (m : Nat) : Nat :=
  if m == 1 then (if isLeapYear y then 29 else 28)
  else if m == 3 || m == 5 || m == 8 || m == 10 then 30
  else 31

/-- JavaScript `d.setMonth(d.getMonth() + 1)`: increment the month, then
normalise a day-of-month overflow into the following month (JS `Date`
rolls over rather than clamping). -/
def addOneMonth (d : Date) : Date :=
  let m1 := d.month + 1
  let y2 := if m1 ≥ 12 then d.year + 1 else d.year
  let m2 := if m1 ≥ 12 then m1 - 12 else m1
  let dim := daysInMonth y2 m2
  if d.day > dim then
    let m3 := m2 + 1
    if m3 ≥ 12 then ⟨y2 + 1, m3 - 12, d.day - dim⟩
    else ⟨y2, m3, d.day - dim⟩
  else ⟨y2, m2, d.day⟩

/-- Strictly monotone encoding of a calendar date, standing in for the
JavaScript `getTime()` millisecond value in comparisons (months are
0..11 and days 1..31, so the encoding respects calendar order). -/
def dateKey (d : Date) : Nat :=
  (d.year * 12 + d.month) * 32 + d.day

/-- JavaScript number abstraction for the values produced by the alert
evaluator: an exact rational, an infinity, or `NaN`. -/
inductive JsNum where
  | fin : ℚ → JsNum
  | posInf : JsNum
  | negInf : JsNum
  | nan : JsNum
deriving DecidableEq, Repr

/-- JavaScript division of finite values: division by zero yields a
signed infinity, and `0 / 0` yields `NaN`. -/
def jsDiv (a b : ℚ) : JsNum :=
  if b = 0 then
    if a > 0 then JsNum.posInf
    else if a < 0 then JsNum.negInf
    else JsNum.nan
  else JsNum.fin (a / b)

/-- Multiplication of a JavaScript number by a finite constant
(`Infinity * c` keeps the sign for `c > 0`, flips it for `c < 0`, and is
`NaN` for `c = 0`). -/
def JsNum.scale (x : JsNum) (c : ℚ) : JsNum :=
  match x with
  | JsNum.fin q => JsNum.fin (q * c)
  | JsNum.posInf => if c > 0 then JsNum.posInf else if c < 0 then JsNum.negInf else JsNum.nan
  | JsNum.negInf => if c > 0 then JsNum.negInf else if c < 0 then JsNum.posInf else JsNum.nan
  | JsNum.nan => JsNum.nan

/-- Subtraction of a finite constant from a JavaScript number. -/
def JsNum.subQ (x : JsNum) (c : ℚ) : JsNum :=
  match x with
  | JsNum.fin q => JsNum.fin (q - c)
  | JsNum.posInf => JsNum.posInf
  | JsNum.negInf => JsNum.negInf
  | JsNum.nan => JsNum.nan

/-- JavaScript `x > c` for a finite constant `c` (`NaN` compares false). -/
def JsNum.gtQ (x : JsNum) (c : ℚ) : Bool :=
  match x with
  | JsNum.fin q => decide (c < q)
  | JsNum.posInf => true
  | JsNum.negInf => false
  | JsNum.nan => false

/-- JavaScript `x <= c` for a finite constant `c` (`NaN` compares false). -/
def JsNum.leQ (x : JsNum) (c : ℚ) : Bool :=
  match x with
  | JsNum.fin q => decide (q ≤ c)
  | JsNum.posInf => false
  | JsNum.negInf => true
  | JsNum.nan => false

/-- Decimal digit as a character. -/
def digitChar (n : Nat) : Char :=
  match n with
  | 0 => '0'
  | 1 => '1'
  | 2 => '2'
  | 3 => '3'
  | 4 => '4'
  | 5 => '5'
  | 6 => '6'
  | 7 => '7'
  | 8 => '8'
  | _ => '9'

/-- Fuel-driven accumulator loop for printing a natural number in
decimal (structural recursion so that concrete instances reduce). -/
def natReprAux (fuel n : Nat) (acc : List Char) : List Char :=
  match fuel with
  | 0 => acc
  | fuel + 1 =>
    if n < 10 then digitChar n :: acc
    else natReprAux fuel (n / 10) (digitChar (n % 10) :: acc)

/-- Decimal rendering of a natural number. -/
def natRepr (n : Nat) : String :=
  String.mk (natReprAux (n + 1) n [])

/-- Left-pad a digit string with zeros to width `f`. -/
def padZeros (s : String) (f : Nat) : String :=
  String.mk (List.replicate (f - s.length) '0') ++ s

/-- ECMA-262 `Number.prototype.toFixed` on an exact rational: the sign is
taken off, the magnitude `a / b` is scaled by `10^f` and rounded to the
nearest integer (ties away from zero, computed as
`⌊(a·10^f·2 + b) / (2·b)⌋` in natural arithmetic), and the digits are
printed with `f` fractional places. -/
def ratToFixed (q : ℚ) (f : Nat) : String :=
  let sign := if q.num < 0 then "-" else ""
  let a : Nat := q.num.natAbs
  let b : Nat := q.den
  let n : Nat := (a * 10 ^ f * 2 + b) / (2 * b)
  if f = 0 then sign ++ natRepr n
  else sign ++ natRepr (n / 10 ^ f) ++ "." ++ padZeros (natRepr (n % 10 ^ f)) f

/-- JavaScript `toFixed` extended to infinities and `NaN`. -/
def JsNum.toFixed (x : JsNum) (f : Nat) : String :=
  match x with
  | JsNum.fin q => ratToFixed q f
  | JsNum.posInf => "Infinity"
  | JsNum.negInf => "-Infinity"
  | JsNum.nan => "NaN"

/-- Category row (shared/schema.ts `categories`). -/
structure Category where
  id : Nat
  name : String
  ctype : String
  color : String
deriving DecidableEq, Repr

/-- Transaction row (shared/schema.ts `transactions`). -/
structure Transaction where
  id : Nat
  userId : Nat
  amount : ℚ
  date : Date
  description : String
  categoryId : Nat
  isIncome : Bool
deriving DecidableEq, Repr

/-- Budget row (shared/schema.ts `budgets`). -/
structure Budget where
  id : Nat
  userId : Nat
  categoryId : Nat
  amount : ℚ
  period : String
deriving DecidableEq, Repr

/-- Alert row (shared/schema.ts `alerts`); `createdAt` is an abstract
timestamp. -/
structure Alert where
  id : Nat
  userId : Nat
  title : String
  message : String
  atype : String
  read : Bool
  createdAt : Nat
deriving DecidableEq, Repr

/-- Insert payload for `MemStorage.createTransaction`; `isIncome` is
`none` when the payload field is absent or not of boolean type. -/
structure InsertTransaction where
  userId : Nat
  amount : ℚ
  date : Date
  description : String
  categoryId : Nat
  isIncome : Option Bool
deriving DecidableEq, Repr

/-- Insert payload for `MemStorage.createAlert` as built by
`checkBudgetAlerts`. -/
structure InsertAlert where
  userId : Nat
  title : String
  message : String
  atype : String
deriving DecidableEq, Repr

/-- In-memory storage state (`MemStorage`): the entity maps are modelled
as lists of rows, with the manually incremented id counters. -/
structure Storage where
  categories : List Category
  transactions : List Transaction
  budgets : List Budget
  alerts : List Alert
  currentTransactionId : Nat
  currentAlertId : Nat
deriving DecidableEq, Repr

/-- `MemStorage.getTransactionsByUser`. -/
def getTransactionsByUser (s : Storage) (userId : Nat) : List Transaction :=
  s.transactions.filter (fun t => t.userId == userId)

/-- `MemStorage.getBudgetsByUser`. -/
def getBudgetsByUser (s : Storage) (userId : Nat) : List Budget :=
  s.budgets.filter (fun b => b.userId == userId)

/-- `MemStorage.getCategoryById` (a `Map.get`). -/
def getCategoryById (s : Storage) (id : Nat) : Option Category :=
  s.categories.find? (fun c => c.id == id)

/-- JavaScript `Map.set` keyed by alert id: replace the entry with the
same key if present, otherwise append. -/
def alertsSet (l : List Alert) (a : Alert) : List Alert :=
  if l.any (fun b => b.id == a.id) then
    l.map (fun b => if b.id == a.id then a else b)
  else l ++ [a]

/-- JavaScript `Map.set` keyed by transaction id. -/
def transactionsSet (l : List Transaction) (t : Transaction) : List Transaction :=
  if l.any (fun u => u.id == t.id) then
    l.map (fun u => if u.id == t.id then t else u)
  else l ++ [t]

/-- `MemStorage.createAlert`: allocate the next id, force `read := false`,
stamp `createdAt`, and store. -/
def createAlert (s : Storage) (createdAt : Nat) (ins : InsertAlert) : Alert × Storage :=
  let id := s.currentAlertId
  let a : Alert := ⟨id, ins.userId, ins.title, ins.message, ins.atype, false, createdAt⟩
  (a, { s with alerts := alertsSet s.alerts a, currentAlertId := id + 1 })

/-- `MemStorage.markAlertAsRead`: look the alert up by id; on a miss
return `false` and leave the store unchanged, otherwise set `read := true`
and store it back under the same key. -/
def markAlertAsRead (s : Storage) (id : Nat) : Bool × Storage :=
  match s.alerts.find? (fun a => a.id == id) with
  | none => (false, s)
  | some a => (true, { s with alerts := alertsSet s.alerts { a with read := true } })

/-- `MemStorage.createTransaction`: allocate the next id and coerce a
non-boolean `isIncome` to `false` before storing. -/
def createTransaction (s : Storage) (p : InsertTransaction) : Transaction × Storage :=
  let id := s.currentTransactionId
  let isIncome := match p.isIncome with
    | some b => b
    | none => false
  let t : Transaction := ⟨id, p.userId, p.amount, p.date, p.description, p.categoryId, isIncome⟩
  (t, { s with transactions := transactionsSet s.transactions t,
               currentTransactionId := id + 1 })

/-- Title of an exceeded-budget alert (routes.ts line 581). -/
def mkErrTitle (categoryName : String) : String :=
  "Budget Alert: " ++ categoryName

/-- Message of an exceeded-budget alert (routes.ts line 582): overage in
dollars to two decimals and percentage over 100 to zero decimals. -/
def mkErrMsg (categoryName : String) (totalSpent budgetAmount : ℚ) (percentage : JsNum) : String :=
  "You\x27ve exceeded your " ++ categoryName ++ " budget by $" ++
    ratToFixed (totalSpent - budgetAmount) 2 ++ " (" ++
    JsNum.toFixed (percentage.subQ 100) 0 ++ "%)"

/-- Title of a budget warning alert (routes.ts line 592). -/
def mkWarnTitle (categoryName : String) : String :=
  "Budget Warning: " ++ categoryName

/-- Message of a budget warning alert (routes.ts line 593): percentage
reached, rounded to zero decimals. -/
def mkWarnMsg (categoryName : String) (percentage : JsNum) : String :=
  "You\x27ve reached " ++ JsNum.toFixed percentage 0 ++ "% of your " ++
    categoryName ++ " budget for this month"

/-- Current-month expense transactions of the user in the category
(routes.ts lines 557-562). -/
def categoryMonthTransactions (s : Storage) (now : Date) (userId categoryId : Nat) :
    List Transaction :=
  (getTransactionsByUser s userId).filter (fun t =>
    t.categoryId == categoryId && !t.isIncome &&
    t.date.month == now.month && t.date.year == now.year)

/-- Total spend used by the alert evaluator (routes.ts lines 565-568):
the sum over the already-persisted current-month expense transactions of
the category, plus the new transaction amount once more. -/
def alertTotalSpent (s : Storage) (now : Date) (userId categoryId : Nat)
    (transactionAmount : ℚ) : ℚ :=
  (categoryMonthTransactions s now userId categoryId).foldl
    (fun sum t => sum + t.amount) 0 + transactionAmount

/-- Percentage of budget computed by the alert evaluator (routes.ts line
571): an unguarded JavaScript division followed by `* 100`. -/
def alertPercentage (totalSpent budgetAmount : ℚ) : JsNum :=
  (jsDiv totalSpent budgetAmount).scale 100

/-- `checkBudgetAlerts` (routes.ts lines 545-597): find the user's budget
for the category (none → no effect); compute the spend total and
percentage; above 100% create an `error` alert, in (90, 100] a `warning`
alert, otherwise nothing. A category that does not resolve is labelled
"this category" in the alert text. -/
def checkBudgetAlerts (s : Storage) (now : Date) (createdAt : Nat)
    (userId categoryId : Nat) (transactionAmount : ℚ) : Storage :=
  match (getBudgetsByUser s userId).find? (fun b => b.categoryId == categoryId) with
  | none => s
  | some budget =>
    let totalSpent := alertTotalSpent s now userId categoryId transactionAmount
    let percentage := alertPercentage totalSpent budget.amount
    if percentage.gtQ 100 then
      let categoryName := match getCategoryById s categoryId with
        | some c => c.name
        | none => "this category"
      (createAlert s createdAt
        ⟨userId, mkErrTitle categoryName,
         mkErrMsg categoryName totalSpent budget.amount percentage, "error"⟩).2
    else if percentage.gtQ 90 && percentage.leQ 100 then
      let categoryName := match getCategoryById s categoryId with
        | some c => c.name
        | none => "this category"
      (createAlert s createdAt
        ⟨userId, mkWarnTitle categoryName,
         mkWarnMsg categoryName percentage, "warning"⟩).2
    else s

/-- `POST /api/transactions` (routes.ts lines 77-94): persist the
transaction, then run the alert evaluator on the persisted state. -/
def postTransaction (s : Storage) (now : Date) (createdAt : Nat)
    (p : InsertTransaction) : Transaction × Storage :=
  let r := createTransaction s p
  (r.1, checkBudgetAlerts r.2 now createdAt r.1.userId r.1.categoryId r.1.amount)

/-- Comparator of the income sort in the summary route (routes.ts line
313): `b` date minus `a` date, i.e. descending by date; `a` precedes `b`
when `b`'s date key is at most `a`'s. -/
def incomeLe (a b : Transaction) : Bool :=
  decide (dateKey b.date ≤ dateKey a.date)

/-- Next-income forecast (routes.ts lines 310-329): stable-sort the
user's income transactions by date descending, take the most recent one,
and forecast its date plus one JavaScript month with its amount; an empty
income history yields `(none, 0)` (the route serialises `none` as the
empty string). -/
def nextIncome (transactions : List Transaction) : Option Date × ℚ :=
  match (transactions.filter (fun t => t.isIncome)).mergeSort incomeLe with
  | [] => (none, 0)
  | lastIncome :: _ => (some (addOneMonth lastIncome.date), lastIncome.amount)

/-- Financial summary value object returned by `GET /api/summary`. -/
structure Summary where
  balance : ℚ
  monthlyIncome : ℚ
  monthlyExpenses : ℚ
  nextIncomeDate : Option Date
  nextIncomeAmount : ℚ
  budgetDifference : ℚ
deriving DecidableEq, Repr

/-- `GET /api/summary` (routes.ts lines 279-349). -/
def getSummary (s : Storage) (now : Date) (userId : Nat) : Summary :=
  let transactions := getTransactionsByUser s userId
  let budgets := getBudgetsByUser s userId
  let currentMonthTransactions := transactions.filter (fun t =>
    t.date.month == now.month && t.date.year == now.year)
  let monthlyIncome := (currentMonthTransactions.filter (fun t => t.isIncome)).foldl
    (fun sum t => sum + t.amount) 0
  let monthlyExpenses := (currentMonthTransactions.filter (fun t => !t.isIncome)).foldl
    (fun sum t => sum + t.amount) 0
  let balance := transactions.foldl
    (fun sum t => if t.isIncome then sum + t.amount else sum - t.amount) 0
  let forecast := nextIncome transactions
  let totalBudgeted : ℚ := budgets.foldl (fun sum b => sum + b.amount) 0
  let budgetDifference := if totalBudgeted > 0 then
      (monthlyExpenses / totalBudgeted - 1) * 100
    else 0
  ⟨balance, monthlyIncome, monthlyExpenses, forecast.1, forecast.2, budgetDifference⟩

/-- Budget projection returned by `GET /api/budgets`. -/
structure BudgetWithDetails where
  budget : Budget
  category : Option Category
  spent : ℚ
  percentage : ℚ
deriving DecidableEq, Repr

/-- `GET /api/budgets` (routes.ts lines 145-186): each budget of the user
with its joined category, current-month expense total, and percentage of
the limit (guarded to 0 when the limit is not positive). -/
def getBudgetsWithDetails (s : Storage) (now : Date) (userId : Nat) :
    List BudgetWithDetails :=
  (getBudgetsByUser s userId).map (fun budget =>
    let category := getCategoryById s budget.categoryId
    let spent := ((getTransactionsByUser s userId).filter (fun t =>
        t.categoryId == budget.categoryId && !t.isIncome &&
        t.date.month == now.month && t.date.year == now.year)).foldl
      (fun sum t => sum + t.amount) 0
    let percentage := if budget.amount > 0 then spent / budget.amount * 100 else 0
    ⟨budget, category, spent, percentage⟩)

/-- Store of spec Scenario A: one "Food" category, a $100 monthly budget
on it for user 1, no transactions, no alerts. -/
def sA : Storage :=
  ⟨[⟨1, "Food", "variable", "#4CAF50"⟩], [], [⟨1, 1, 1, 100, "monthly"⟩], [], 1, 1⟩

/-- Request time used by the concrete scenarios: June 15, 2025. -/
def nowA : Date := ⟨2025, 5, 15⟩

/-- Scenario A insert payload: a $95 expense in the "Food" category in
the current month. -/
def pA : InsertTransaction := ⟨1, 95, ⟨2025, 5, 10⟩, "groceries", 1, some false⟩

/-- Store with a zero-limit budget on the "Food" category and no
transactions. -/
def sZ : Storage :=
  ⟨[⟨1, "Food", "variable", "#4CAF50"⟩], [], [⟨1, 1, 1, 0, "monthly"⟩], [], 1, 1⟩

/-- Empty store. -/
def sE : Storage := ⟨[], [], [], [], 1, 1⟩

/-- Store with a $100 budget for user 1 on category 1 but no category
row with id 1 (deleted/missing category). -/
def sMC : Storage := ⟨[], [], [⟨1, 1, 1, 100, "monthly"⟩], [], 1, 1⟩

/-- Store with a single unread alert of id 1. -/
def sAl : Storage :=
  ⟨[], [], [], [⟨1, 1, "Budget Warning: Food", "some message", "warning", false, 5⟩], 1, 2⟩

/-- Store of spec Scenario D: two $1000 income transactions dated
January 1 and February 1, 2025, for user 1. -/
def sD : Storage :=
  ⟨[], [⟨1, 1, 1000, ⟨2025, 0, 1⟩, "salary", 2, true⟩,
        ⟨2, 1, 1000, ⟨2025, 1, 1⟩, "salary", 2, true⟩], [], [], 3, 1⟩

/-- Request time of Scenario D: February 15, 2025. -/
def nowD : Date := ⟨2025, 1, 15⟩

/-- Insert payload whose `isIncome` field is absent / not boolean. -/
def pN : InsertTransaction := ⟨1, 50, ⟨2025, 5, 10⟩, "book", 1, none⟩

/-- Folding addition of transaction amounts equals the initial value
plus the sum of the amounts. -/
theorem foldl_amount_eq (l : List Transaction) (init : ℚ) :
    l.foldl (fun sum t => sum + t.amount) init = init + (l.map (fun t => t.amount)).sum := by
  induction l generalizing init with
  | nil => simp
  | cons x xs ih => simp [List.foldl_cons, ih, add_assoc]

/-- Folding addition of budget amounts equals the initial value plus the
sum of the amounts. -/
theorem foldl_budget_amount_eq (l : List Budget) (init : ℚ) :
    l.foldl (fun sum b => sum + b.amount) init = init + (l.map (fun b => b.amount)).sum := by
  induction l generalizing init with
  | nil => simp
  | cons x xs ih => simp [List.foldl_cons, ih, add_assoc]

/-- Folding the income-signed accumulator over a list equals the initial
value plus the signed sum. -/
theorem foldl_signed_eq (l : List Transaction) (init : ℚ) :
    l.foldl (fun sum t => if t.isIncome then sum + t.amount else sum - t.amount) init =
      init + (l.map (fun t => if t.isIncome then t.amount else -t.amount)).sum := by
  induction l generalizing init with
  | nil => simp
  | cons x xs ih =>
    rw [List.foldl_cons, ih, List.map_cons, List.sum_cons]
    by_cases h : x.isIncome
    · rw [if_pos h, if_pos h]
      ring
    · rw [if_neg h, if_neg h]
      ring

/-- Inserting an alert whose id is not yet a key of the alert map
appends it. -/
theorem alertsSet_fresh (l : List Alert) (a : Alert)
    (h : ∀ b ∈ l, (b.id == a.id) = false) : alertsSet l a = l ++ [a] := by
  unfold alertsSet
  rw [if_neg]
  intro hany
  rw [List.any_eq_true] at hany
  obtain ⟨b, hb, hid⟩ := hany
  rw [h b hb] at hid
  exact Bool.false_ne_true hid

/-- Inserting an alert at the store's current (not yet allocated) id
appends it, given that all stored alert ids are below the counter. -/
theorem alertsSet_current (s : Storage) (a : Alert)
    (hfresh : ∀ b ∈ s.alerts, b.id < s.currentAlertId)
    (ha : a.id = s.currentAlertId) : alertsSet s.alerts a = s.alerts ++ [a] := by
  refine alertsSet_fresh s.alerts a (fun b hb => ?_)
  have hlt := hfresh b hb
  rw [ha]
  simp only [beq_eq_false_iff_ne, ne_eq]
  exact Nat.ne_of_lt hlt

/-- Claim C1. The spec's Scenario A — a $100 "Food" budget, no prior
transactions, a $95 expense created in the current month — does NOT
produce a 95% warning: because `checkBudgetAlerts` sums the persisted
transactions (which already include the new one) and then adds the new
amount again, the computed spend is $190 (190%), and a single
`error`-severity alert reporting a $90.00 overage (90%) is created. -/
theorem C1_scenario_a_double_count :
    (postTransaction sA nowA 7 pA).2.alerts =
      [⟨1, 1, "Budget Alert: Food",
        "You\x27ve exceeded your Food budget by $90.00 (90%)", "error", false, 7⟩] ∧
    alertTotalSpent (createTransaction sA pA).2 nowA 1 1 95 = 190 := by
  constructor
  · norm_num [postTransaction, createTransaction, checkBudgetAlerts, sA, nowA, pA,
      getBudgetsByUser, getTransactionsByUser, getCategoryById, transactionsSet,
      alertTotalSpent, categoryMonthTransactions, alertPercentage, jsDiv,
      JsNum.scale, JsNum.gtQ, JsNum.leQ, JsNum.subQ, mkErrTitle, mkErrMsg,
      JsNum.toFixed, ratToFixed, createAlert, alertsSet]
    decide
  · norm_num [createTransaction, sA, pA, transactionsSet, alertTotalSpent,
      categoryMonthTransactions, getTransactionsByUser, nowA]

/-- Claim C3, counterexample. The alert evaluator's percentage division
is not guarded: with a zero budget limit and a $95 spend the percentage
is `Infinity`, and instead of degrading to 0 (hence no alert) the
evaluator emits an `error` alert whose message renders the percentage as
"Infinity". -/
theorem C3_counterexample_unguarded_division :
    alertPercentage 95 0 = JsNum.posInf ∧
    (checkBudgetAlerts sZ nowA 7 1 1 95).alerts =
      [⟨1, 1, "Budget Alert: Food",
        "You\x27ve exceeded your Food budget by $95.00 (Infinity%)", "error", false, 7⟩] := by
  constructor
  · norm_num [alertPercentage, jsDiv, JsNum.scale]
  · norm_num [checkBudgetAlerts, sZ, nowA,
      getBudgetsByUser, getTransactionsByUser, getCategoryById,
      alertTotalSpent, categoryMonthTransactions, alertPercentage, jsDiv,
      JsNum.scale, JsNum.gtQ, JsNum.leQ, JsNum.subQ, mkErrTitle, mkErrMsg,
      JsNum.toFixed, ratToFixed, createAlert, alertsSet]
    decide

/-- Claim C4. The summary's `balance` is the signed sum over ALL of the
user's transactions — amount added when the income flag is true and
subtracted when it is false — with no month or year filtering. -/
theorem C4_balance_signed_sum (s : Storage) (now : Date) (uid : Nat) :
    (getSummary s now uid).balance =
      ((getTransactionsByUser s uid).map
        (fun t => if t.isIncome then t.amount else -t.amount)).sum := by
  simp only [getSummary]
  rw [foldl_signed_eq, zero_add]

/-- Claim C7. When the user has no budget for the transaction's
category, `checkBudgetAlerts` returns the store unchanged: no alert is
created and no other state is touched. -/
theorem C7_no_budget_no_alert (s : Storage) (now : Date) (createdAt uid cid : Nat)
    (amt : ℚ)
    (hb : (getBudgetsByUser s uid).find? (fun b => b.categoryId == cid) = none) :
    checkBudgetAlerts s now createdAt uid cid amt = s := by
  simp only [checkBudgetAlerts, hb]

/-- Witness for claim C7 at a concrete input: the empty store has no
budget for category 1, and the evaluator leaves it untouched. -/
theorem C7_witness : checkBudgetAlerts sE nowA 7 1 1 95 = sE :=
  C7_no_budget_no_alert sE nowA 7 1 1 95 (by rfl)

/-- Claim C5. The summary's `budgetDifference` equals
`((monthlyExpenses / totalBudgeted) - 1) * 100` whenever the total
budgeted amount (sum of all the user's budget limits) is strictly
positive, and equals 0 whenever that total is 0, regardless of
expenses. -/
theorem C5_budget_difference (s : Storage) (now : Date) (uid : Nat) :
    (0 < ((getBudgetsByUser s uid).map (fun b => b.amount)).sum →
      (getSummary s now uid).budgetDifference =
        ((getSummary s now uid).monthlyExpenses /
          ((getBudgetsByUser s uid).map (fun b => b.amount)).sum - 1) * 100) ∧
    (((getBudgetsByUser s uid).map (fun b => b.amount)).sum = 0 →
      (getSummary s now uid).budgetDifference = 0) := by
  constructor
  · intro h
    simp only [getSummary]
    rw [foldl_budget_amount_eq, zero_add, if_pos h]
  · intro h
    simp only [getSummary]
    rw [foldl_budget_amount_eq, zero_add, h]
    norm_num

/-- Witness for claim C5: for the Scenario A store the budgeted total is
$100 > 0 and the formula applies; for the empty store the total is 0 and
the difference is 0. -/
theorem C5_witness :
    ((getSummary sA nowA 1).budgetDifference =
      ((getSummary sA nowA 1).monthlyExpenses /
        ((getBudgetsByUser sA 1).map (fun b => b.amount)).sum - 1) * 100) ∧
    (getSummary sE nowA 1).budgetDifference = 0 :=
  ⟨(C5_budget_difference sA nowA 1).1 (by norm_num [getBudgetsByUser, sA]),
   (C5_budget_difference sE nowA 1).2 (by simp [getBudgetsByUser, sE])⟩

/-- Claim C2. Given an existing budget for the event's category and a
finite computed spend percentage `p`, the alert decision is monotone in
`p`: at or below 90 the alert list is unchanged; strictly above 90 and
at most 100 exactly one `warning` alert is appended; strictly above 100
exactly one `error` alert is appended. -/
theorem C2_alert_threshold_monotone (s : Storage) (now : Date)
    (createdAt uid cid : Nat) (amt : ℚ) (b : Budget) (p : ℚ)
    (hb : (getBudgetsByUser s uid).find? (fun b2 => b2.categoryId == cid) = some b)
    (hp : alertPercentage (alertTotalSpent s now uid cid amt) b.amount = JsNum.fin p)
    (hfresh : ∀ a ∈ s.alerts, a.id < s.currentAlertId) :
    (p ≤ 90 → (checkBudgetAlerts s now createdAt uid cid amt).alerts = s.alerts) ∧
    (90 < p → p ≤ 100 → ∃ a,
      (checkBudgetAlerts s now createdAt uid cid amt).alerts = s.alerts ++ [a] ∧
      a.atype = "warning" ∧ a.read = false) ∧
    (100 < p → ∃ a,
      (checkBudgetAlerts s now createdAt uid cid amt).alerts = s.alerts ++ [a] ∧
      a.atype = "error" ∧ a.read = false) := by
  refine ⟨?_, ?_, ?_⟩
  · intro hle
    have e1 : JsNum.gtQ (JsNum.fin p) 100 = false := by
      simp only [JsNum.gtQ, decide_eq_false_iff_not, not_lt]
      linarith
    have e90 : JsNum.gtQ (JsNum.fin p) 90 = false := by
      simp only [JsNum.gtQ, decide_eq_false_iff_not, not_lt]
      linarith
    simp only [checkBudgetAlerts, hb, hp, e1, e90, Bool.false_and,
      Bool.false_eq_true, if_false]
  · intro h90 h100
    have e1 : JsNum.gtQ (JsNum.fin p) 100 = false := by
      simp only [JsNum.gtQ, decide_eq_false_iff_not, not_lt]
      linarith
    have e2 : (JsNum.gtQ (JsNum.fin p) 90 && JsNum.leQ (JsNum.fin p) 100) = true := by
      simp only [JsNum.gtQ, JsNum.leQ, Bool.and_eq_true, decide_eq_true_eq]
      exact ⟨h90, h100⟩
    simp only [checkBudgetAlerts, hb, hp, e1, e2, Bool.false_eq_true, if_false, if_true,
      createAlert]
    refine ⟨_, alertsSet_current s _ hfresh rfl, ?_, ?_⟩ <;> rfl
  · intro h100
    have e1 : JsNum.gtQ (JsNum.fin p) 100 = true := by
      simp only [JsNum.gtQ, decide_eq_true_eq]
      exact h100
    simp only [checkBudgetAlerts, hb, hp, e1, if_true, createAlert]
    refine ⟨_, alertsSet_current s _ hfresh rfl, ?_, ?_⟩ <;> rfl

/-- Witness for claim C2 at the spec's four boundary percentages: on the
Scenario A store (a $100 budget, no stored transactions) transaction
amounts 90, 90.01, 100 and 100.01 realise spend percentages 90, 90.01,
100 and 100.01, and yield respectively no alert, a warning, a warning,
and an error. -/
theorem C2_witness_boundaries :
    ((checkBudgetAlerts sA nowA 7 1 1 90).alerts = sA.alerts) ∧
    (∃ a, (checkBudgetAlerts sA nowA 7 1 1 (90.01 : ℚ)).alerts = sA.alerts ++ [a] ∧
      a.atype = "warning" ∧ a.read = false) ∧
    (∃ a, (checkBudgetAlerts sA nowA 7 1 1 100).alerts = sA.alerts ++ [a] ∧
      a.atype = "warning" ∧ a.read = false) ∧
    (∃ a, (checkBudgetAlerts sA nowA 7 1 1 (100.01 : ℚ)).alerts = sA.alerts ++ [a] ∧
      a.atype = "error" ∧ a.read = false) := by
  have hb : (getBudgetsByUser sA 1).find? (fun b2 => b2.categoryId == 1) =
      some ⟨1, 1, 1, 100, "monthly"⟩ := by rfl
  have hfresh : ∀ a ∈ sA.alerts, a.id < sA.currentAlertId := by
    simp [sA]
  refine ⟨?_, ?_, ?_, ?_⟩
  · exact (C2_alert_threshold_monotone sA nowA 7 1 1 90 ⟨1, 1, 1, 100, "monthly"⟩ 90 hb
      (by norm_num [alertPercentage, alertTotalSpent, categoryMonthTransactions,
        getTransactionsByUser, sA, jsDiv, JsNum.scale]) hfresh).1 (by norm_num)
  · exact (C2_alert_threshold_monotone sA nowA 7 1 1 (90.01 : ℚ) ⟨1, 1, 1, 100, "monthly"⟩
      (90.01 : ℚ) hb
      (by norm_num [alertPercentage, alertTotalSpent, categoryMonthTransactions,
        getTransactionsByUser, sA, jsDiv, JsNum.scale]) hfresh).2.1
      (by norm_num) (by norm_num)
  · exact (C2_alert_threshold_monotone sA nowA 7 1 1 100 ⟨1, 1, 1, 100, "monthly"⟩ 100 hb
      (by norm_num [alertPercentage, alertTotalSpent, categoryMonthTransactions,
        getTransactionsByUser, sA, jsDiv, JsNum.scale]) hfresh).2.1
      (by norm_num) (by norm_num)
  · exact (C2_alert_threshold_monotone sA nowA 7 1 1 (100.01 : ℚ) ⟨1, 1, 1, 100, "monthly"⟩
      (100.01 : ℚ) hb
      (by norm_num [alertPercentage, alertTotalSpent, categoryMonthTransactions,
        getTransactionsByUser, sA, jsDiv, JsNum.scale]) hfresh).2.2
      (by norm_num)

/-- Claim C3, amended. Division by a possibly-zero budgeted total is
guarded (returning 0) in the budget-with-spent projector and in the
summary's `budgetDifference`; the alert evaluator's percentage division
is NOT guarded: a zero limit with positive spend yields an infinite
percentage (and hence an error alert) rather than 0. -/
theorem C3_division_guards (s : Storage) (now : Date) (uid : Nat) (ts : ℚ) :
    (∀ bd ∈ getBudgetsWithDetails s now uid, bd.budget.amount = 0 → bd.percentage = 0) ∧
    (((getBudgetsByUser s uid).map (fun b => b.amount)).sum = 0 →
      (getSummary s now uid).budgetDifference = 0) ∧
    (0 < ts → alertPercentage ts 0 = JsNum.posInf) := by
  refine ⟨?_, ?_, ?_⟩
  · intro bd hbd h0
    simp only [getBudgetsWithDetails, List.mem_map] at hbd
    obtain ⟨budget, hmem, hEq⟩ := hbd
    rw [← hEq] at h0 ⊢
    simp only at h0 ⊢
    rw [h0]
    norm_num
  · intro h
    simp only [getSummary]
    rw [foldl_budget_amount_eq, zero_add, h]
    norm_num
  · intro h
    unfold alertPercentage jsDiv
    rw [if_pos rfl, if_pos h]
    norm_num [JsNum.scale]

/-- Witness for claim C3: the projector on the zero-limit store reports
percentage 0, the empty store's summary has `budgetDifference` 0, and a
$95 spend against a zero limit gives an `Infinity` percentage in the
evaluator. -/
theorem C3_witness :
    (∀ bd ∈ getBudgetsWithDetails sZ nowA 1, bd.budget.amount = 0 → bd.percentage = 0) ∧
    (getSummary sE nowA 1).budgetDifference = 0 ∧
    alertPercentage 95 0 = JsNum.posInf :=
  ⟨(C3_division_guards sZ nowA 1 95).1,
   (C3_division_guards sE nowA 1 95).2.1 (by simp [getBudgetsByUser, sE]),
   (C3_division_guards sE nowA 1 95).2.2 (by norm_num)⟩

/-- Reduction of `nextIncome` when the income filter is empty. -/
theorem nextIncome_nil (l : List Transaction)
    (h : l.filter (fun t => t.isIncome) = []) : nextIncome l = (none, 0) := by
  unfold nextIncome
  rw [h, List.mergeSort_nil]

/-- Reduction of `nextIncome` when the sorted income list is nonempty. -/
theorem nextIncome_cons (l : List Transaction) (t : Transaction) (rest : List Transaction)
    (h : (l.filter (fun t => t.isIncome)).mergeSort incomeLe = t :: rest) :
    nextIncome l = (some (addOneMonth t.date), t.amount) := by
  unfold nextIncome
  rw [h]

/-- Transitivity of the income-sort comparator. -/
theorem incomeLe_trans : ∀ a b c : Transaction,
    incomeLe a b = true → incomeLe b c = true → incomeLe a c = true := by
  intro a b c h1 h2
  simp only [incomeLe, decide_eq_true_eq] at h1 h2 ⊢
  omega

/-- Totality of the income-sort comparator. -/
theorem incomeLe_total : ∀ a b : Transaction, (incomeLe a b || incomeLe b a) = true := by
  intro a b
  simp only [incomeLe, Bool.or_eq_true, decide_eq_true_eq]
  omega

/-- Claim C6. If the user has income transactions, the summary's
forecast comes from a most-recent-dated income transaction `t`: the next
income date is `t`'s date plus one (JavaScript) calendar month and the
amount is `t.amount`; with no income transactions the forecast date is
empty (`none`) and the amount is 0. -/
theorem C6_next_income_forecast (s : Storage) (now : Date) (uid : Nat) :
    ((getTransactionsByUser s uid).filter (fun t => t.isIncome) = [] →
      (getSummary s now uid).nextIncomeDate = none ∧
      (getSummary s now uid).nextIncomeAmount = 0) ∧
    ((getTransactionsByUser s uid).filter (fun t => t.isIncome) ≠ [] →
      ∃ t, t ∈ (getTransactionsByUser s uid).filter (fun t => t.isIncome) ∧
        (∀ u ∈ (getTransactionsByUser s uid).filter (fun t => t.isIncome),
          dateKey u.date ≤ dateKey t.date) ∧
        (getSummary s now uid).nextIncomeDate = some (addOneMonth t.date) ∧
        (getSummary s now uid).nextIncomeAmount = t.amount) := by
  have hd : (getSummary s now uid).nextIncomeDate =
      (nextIncome (getTransactionsByUser s uid)).1 := rfl
  have ha : (getSummary s now uid).nextIncomeAmount =
      (nextIncome (getTransactionsByUser s uid)).2 := rfl
  constructor
  · intro h
    rw [hd, ha, nextIncome_nil _ h]
    exact ⟨rfl, rfl⟩
  · intro hne
    cases hs : ((getTransactionsByUser s uid).filter (fun t => t.isIncome)).mergeSort incomeLe with
    | nil =>
      exfalso
      have hperm := List.mergeSort_perm
        ((getTransactionsByUser s uid).filter (fun t => t.isIncome)) incomeLe
      rw [hs] at hperm
      exact hne (List.nil_perm.mp hperm)
    | cons t rest =>
      refine ⟨t, ?_, ?_, ?_, ?_⟩
      · have hmem : t ∈ ((getTransactionsByUser s uid).filter
            (fun t => t.isIncome)).mergeSort incomeLe := by
          rw [hs]
          exact List.mem_cons_self t rest
        exact List.mem_mergeSort.mp hmem
      · intro u hu
        have hu2 : u ∈ t :: rest := by
          rw [← hs]
          exact List.mem_mergeSort.mpr hu
        rcases List.mem_cons.mp hu2 with h1 | h2
        · rw [h1]
        · have hsorted := List.sorted_mergeSort incomeLe_trans incomeLe_total
            ((getTransactionsByUser s uid).filter (fun t => t.isIncome))
          rw [hs] at hsorted
          have h3 := (List.pairwise_cons.mp hsorted).1 u h2
          simpa [incomeLe] using h3
      · rw [hd, nextIncome_cons _ t rest hs]
      · rw [ha, nextIncome_cons _ t rest hs]

/-- Witness for claim C6 on the Scenario D store (incomes on Jan 1 and
Feb 1, 2025): the summary forecast comes from a maximal-date income
transaction with date plus one month and that transaction's amount. -/
theorem C6_witness :
    ∃ t, t ∈ (getTransactionsByUser sD 1).filter (fun t => t.isIncome) ∧
      (∀ u ∈ (getTransactionsByUser sD 1).filter (fun t => t.isIncome),
        dateKey u.date ≤ dateKey t.date) ∧
      (getSummary sD nowD 1).nextIncomeDate = some (addOneMonth t.date) ∧
      (getSummary sD nowD 1).nextIncomeAmount = t.amount :=
  (C6_next_income_forecast sD nowD 1).2 (by simp [getTransactionsByUser, sD])

/-- Claim C8. When the alert evaluator fires but the category id does
not resolve, the alert is still created and its title and message use
the label "this category" in place of the category name: this holds in
both the over-100 (error) branch and the (90, 100] (warning) branch. -/
theorem C8_missing_category_label (s : Storage) (now : Date) (createdAt uid cid : Nat)
    (amt : ℚ) (b : Budget)
    (hb : (getBudgetsByUser s uid).find? (fun b2 => b2.categoryId == cid) = some b)
    (hc : getCategoryById s cid = none)
    (hfresh : ∀ a ∈ s.alerts, a.id < s.currentAlertId) :
    (JsNum.gtQ (alertPercentage (alertTotalSpent s now uid cid amt) b.amount) 100 = true →
      (checkBudgetAlerts s now createdAt uid cid amt).alerts = s.alerts ++
        [⟨s.currentAlertId, uid, mkErrTitle ("this category"),
          mkErrMsg ("this category") (alertTotalSpent s now uid cid amt) b.amount
            (alertPercentage (alertTotalSpent s now uid cid amt) b.amount),
          "error", false, createdAt⟩]) ∧
    (JsNum.gtQ (alertPercentage (alertTotalSpent s now uid cid amt) b.amount) 100 = false →
      (JsNum.gtQ (alertPercentage (alertTotalSpent s now uid cid amt) b.amount) 90 &&
        JsNum.leQ (alertPercentage (alertTotalSpent s now uid cid amt) b.amount) 100) = true →
      (checkBudgetAlerts s now createdAt uid cid amt).alerts = s.alerts ++
        [⟨s.currentAlertId, uid, mkWarnTitle ("this category"),
          mkWarnMsg ("this category")
            (alertPercentage (alertTotalSpent s now uid cid amt) b.amount),
          "warning", false, createdAt⟩]) := by
  constructor
  · intro h100
    simp only [checkBudgetAlerts, hb, hc, h100, if_true, createAlert]
    exact alertsSet_current s _ hfresh rfl
  · intro h100 hw
    simp only [checkBudgetAlerts, hb, hc, h100, hw, Bool.false_eq_true, if_false,
      if_true, createAlert]
    exact alertsSet_current s _ hfresh rfl

/-- Witness for claim C8: on a store whose only budget points at a
category id with no category row, a $95 transaction against the $100
budget produces a warning alert titled and phrased with the literal
label "this category". -/
theorem C8_witness :
    (checkBudgetAlerts sMC nowA 7 1 1 95).alerts =
      [⟨1, 1, "Budget Warning: this category",
        "You\x27ve reached 95% of your this category budget for this month",
        "warning", false, 7⟩] := by
  have h := (C8_missing_category_label sMC nowA 7 1 1 95 ⟨1, 1, 1, 100, "monthly"⟩
    (by rfl) (by rfl) (by simp [sMC])).2
    (by norm_num [alertPercentage, alertTotalSpent, categoryMonthTransactions,
      getTransactionsByUser, sMC, jsDiv, JsNum.scale, JsNum.gtQ])
    (by norm_num [alertPercentage, alertTotalSpent, categoryMonthTransactions,
      getTransactionsByUser, sMC, jsDiv, JsNum.scale, JsNum.gtQ, JsNum.leQ])
  rw [h]
  norm_num [sMC, mkWarnTitle, mkWarnMsg, JsNum.toFixed, ratToFixed, alertPercentage,
    alertTotalSpent, categoryMonthTransactions, getTransactionsByUser, jsDiv,
    JsNum.scale, nowA]
  decide

/-- Claim C9. Alerts are append-only: `createAlert` stores its alert
with `read = false` and appends it; `markAlertAsRead` on a missing id
returns `false` and leaves the store untouched, and on a present id
returns `true` and only flips the matching alert's `read` flag to
`true`, preserving its id, userId, title, message, type and createdAt
and every other alert and collection. -/
theorem C9_alerts_append_only (s : Storage) (createdAt : Nat) (ins : InsertAlert) (i : Nat)
    (hfresh : ∀ a ∈ s.alerts, a.id < s.currentAlertId)
    (hnodup : (s.alerts.map (fun a => a.id)).Nodup) :
    ((createAlert s createdAt ins).1.read = false) ∧
    ((createAlert s createdAt ins).2.alerts = s.alerts ++ [(createAlert s createdAt ins).1]) ∧
    (s.alerts.find? (fun a => a.id == i) = none → markAlertAsRead s i = (false, s)) ∧
    (∀ a, s.alerts.find? (fun a2 => a2.id == i) = some a →
      (markAlertAsRead s i).1 = true ∧
      (markAlertAsRead s i).2.alerts =
        s.alerts.map (fun b => if b.id = i then
          ⟨b.id, b.userId, b.title, b.message, b.atype, true, b.createdAt⟩ else b) ∧
      (markAlertAsRead s i).2.transactions = s.transactions ∧
      (markAlertAsRead s i).2.budgets = s.budgets ∧
      (markAlertAsRead s i).2.categories = s.categories) := by
  refine ⟨rfl, ?_, ?_, ?_⟩
  · simp only [createAlert]
    exact alertsSet_current s _ hfresh rfl
  · intro hnone
    simp only [markAlertAsRead, hnone]
  · intro a ha
    have hmem : a ∈ s.alerts := List.mem_of_find?_eq_some ha
    have hid : a.id = i := by
      have h2 := List.find?_some ha
      simpa using h2
    refine ⟨?_, ?_, ?_, ?_, ?_⟩
    · simp only [markAlertAsRead, ha]
    · simp only [markAlertAsRead, ha]
      unfold alertsSet
      rw [if_pos]
      · apply List.map_congr_left
        intro bb hbmem
        by_cases hbi : bb.id = i
        · have hba : bb = a := by
            refine List.inj_on_of_nodup_map hnodup hbmem hmem ?_
            rw [hbi, hid]
          subst hba
          simp [hbi]
        · have hne : (bb.id == ({ a with read := true } : Alert).id) = false := by
            simp only [beq_eq_false_iff_ne, ne_eq]
            intro hcontra
            exact hbi (by rw [hcontra] at *; exact hid)
          rw [hne]
          simp [hbi]
      · rw [List.any_eq_true]
        exact ⟨a, hmem, by simp⟩
    · simp only [markAlertAsRead, ha]
    · simp only [markAlertAsRead, ha]
    · simp only [markAlertAsRead, ha]

/-- Witness for claim C9 on a concrete one-alert store: a freshly
created alert is unread, marking the existing alert id 1 succeeds and
flips only its read flag, and marking the absent id 99 fails and leaves
the store unchanged. -/
theorem C9_witness :
    ((createAlert sAl 9 ⟨1, "T", "M", "success"⟩).1.read = false) ∧
    ((markAlertAsRead sAl 1).1 = true) ∧
    ((markAlertAsRead sAl 1).2.alerts =
      [⟨1, 1, "Budget Warning: Food", "some message", "warning", true, 5⟩]) ∧
    (markAlertAsRead sAl 99 = (false, sAl)) := by
  have hfresh : ∀ a ∈ sAl.alerts, a.id < sAl.currentAlertId := by simp [sAl]
  have hnodup : (sAl.alerts.map (fun a => a.id)).Nodup := by simp [sAl]
  have h1 := C9_alerts_append_only sAl 9 ⟨1, "T", "M", "success"⟩ 1 hfresh hnodup
  have h99 := C9_alerts_append_only sAl 9 ⟨1, "T", "M", "success"⟩ 99 hfresh hnodup
  have hsome : sAl.alerts.find? (fun a2 => a2.id == 1) =
      some ⟨1, 1, "Budget Warning: Food", "some message", "warning", false, 5⟩ := by rfl
  have hmarked := h1.2.2.2 _ hsome
  refine ⟨h1.1, hmarked.1, ?_, h99.2.2.1 (by rfl)⟩
  rw [hmarked.2.1]
  decide

/-- Claim C10. `createTransaction` coerces a non-boolean `isIncome`
payload field to `false`: the stored transaction's flag is the payload's
boolean when one was given and `false` otherwise, the stored transaction
is in the store, and every transaction in the store after the call was
either there before or is the one just created. -/
theorem C10_isincome_coerced (s : Storage) (p : InsertTransaction) :
    ((createTransaction s p).1.isIncome = p.isIncome.getD false) ∧
    ((createTransaction s p).1 ∈ (createTransaction s p).2.transactions) ∧
    (∀ t ∈ (createTransaction s p).2.transactions,
      t ∈ s.transactions ∨ t = (createTransaction s p).1) := by
  refine ⟨?_, ?_, ?_⟩
  · cases h : p.isIncome <;> simp [createTransaction, h]
  · simp only [createTransaction, transactionsSet]
    split
    · rename_i hany
      rw [List.any_eq_true] at hany
      obtain ⟨u, hu, hid⟩ := hany
      rw [List.mem_map]
      refine ⟨u, hu, ?_⟩
      simp [hid]
    · simp
  · intro t ht
    simp only [createTransaction, transactionsSet] at ht
    split at ht
    · rw [List.mem_map] at ht
      obtain ⟨u, hu, hEq⟩ := ht
      by_cases hid : (u.id == s.currentTransactionId) = true
      · right
        rw [← hEq]
        simp [createTransaction, hid]
      · left
        rw [← hEq]
        simp [createTransaction, hid]
        exact hu
    · rw [List.mem_append] at ht
      rcases ht with h | h
      · exact Or.inl h
      · right
        simpa using h

/-- Witness for claim C10: creating a transaction from a payload with a
non-boolean `isIncome` stores it with `isIncome = false`, and the stored
transaction is accounted for by the frame property. -/
theorem C10_witness :
    ((createTransaction sE pN).1.isIncome = pN.isIncome.getD false) ∧
    ((createTransaction sE pN).1 ∈ sE.transactions ∨
      (createTransaction sE pN).1 = (createTransaction sE pN).1) :=
  ⟨(C10_isincome_coerced sE pN).1,
   (C10_isincome_coerced sE pN).2.2 (createTransaction sE pN).1
     ((C10_isincome_coerced sE pN).2.1)⟩

end SmartSpend
